import Mathlib

/-
Verification of the message-queue dispatch subsystem of this repository:
the RabbitMQService class and POST /api/users route of the Socket.io app
(src/unnamed/part_000), the connectRabbitMQ manager and its routes
(src/unnamed/part_001), and the standalone email worker
(src/email-worker.js). Each definition below is a shallow embedding of
the correspondingly named source function; broker channel operations are
modelled as explicit operation lists, and the asynchronous delivery
callbacks as event traces over the possible parse/handler outcomes.
-/

/-- A JSON value, as produced by JSON.stringify / consumed by JSON.parse
in the source. Objects keep their fields as an ordered association list,
matching the insertion-order semantics of JavaScript objects. -/
inductive JVal where
  | str (s : String)
  | num (n : Int)
  | bool (b : Bool)
  | null
  | obj (fields : List (String × JVal))

/-- Lookup of a key in an ordered field list; a missing key is `none`,
modelling the JavaScript `undefined`. -/
def lookupKey : List (String × JVal) → String → Option JVal
  | [], _ => none
  | (k0, v) :: rest, k => if k0 = k then some v else lookupKey rest k

/-- Property access `v[k]` on a JSON value: defined on objects, and
`undefined` (`none`) on everything else. -/
def JVal.getField : JVal → String → Option JVal
  | .obj fs, k => lookupKey fs k
  | _, _ => none

/-- Assignment of a key in an ordered field list, with JavaScript object
semantics: an existing key keeps its original position and receives the
new value; a fresh key is appended at the end. -/
def setKey : List (String × JVal) → String → JVal → List (String × JVal)
  | [], k, v => [(k, v)]
  | (k0, v0) :: rest, k, v =>
      if k0 = k then (k, v) :: rest else (k0, v0) :: setKey rest k v

/-- The envelope built by RabbitMQService.sendToQueue
(src/unnamed/part_000 lines 102-106): the spread of the caller payload
followed by the assignments `timestamp: new Date().toISOString()` and
`messageId: Date.now() + Math.random()`. The timestamp string and the
messageId value are parameters of the model. -/
def mergeEnvelope (payload : List (String × JVal)) (ts : String) (mid : JVal) :
    List (String × JVal) :=
  setKey (setKey payload "timestamp" (JVal.str ts)) "messageId" mid

/-- Escape of quote and backslash inside a JSON string literal. -/
def escapeJson (s : String) : String :=
  String.join (s.toList.map fun c =>
    if c = '"' then "\\\"" else if c = '\\' then "\\\\" else String.singleton c)

mutual

/-- JSON.stringify on the JVal model (string escaping limited to the
quote and backslash characters, which suffices for the payloads of this
repository). -/
def stringifyVal : JVal → String
  | .str s => "\"" ++ escapeJson s ++ "\""
  | .num n => toString n
  | .bool b => if b then "true" else "false"
  | .null => "null"
  | .obj fs => "\x7b" ++ stringifyFields fs ++ "\x7d"

/-- Serialization of the ordered field list of a JSON object. -/
def stringifyFields : List (String × JVal) → String
  | [] => ""
  | [(k, v)] => "\"" ++ escapeJson k ++ "\":" ++ stringifyVal v
  | (k, v) :: rest =>
      "\"" ++ escapeJson k ++ "\":" ++ stringifyVal v ++ "," ++ stringifyFields rest

end

/-- Outcome of JSON.parse on a delivered message body: either the body
parses, or JSON.parse throws. The parsed content is irrelevant to the
acknowledgment logic and is elided. -/
inductive ParseOutcome where
  | parsed
  | failed
deriving DecidableEq, Fintype

/-- Outcome of awaiting the registered handler callback on a parsed
message: it either returns normally or throws (a rejected promise). -/
inductive HandlerOutcome where
  | returns
  | throws
deriving DecidableEq, Fintype

/-- Observable events of one invocation of a delivery callback. The two
Bool arguments of `nacked` are the `allUpTo` and `requeue` arguments of
channel.nack, in source order. -/
inductive DeliveryEvent where
  | parseStart
  | parseFailed
  | handlerStart
  | handlerReturned
  | handlerThrew
  | acked
  | nacked (allUpTo : Bool) (requeue : Bool)
deriving DecidableEq

/-- The delivery callback registered by RabbitMQService.consumeQueue
(src/unnamed/part_000 lines 131-145): a null message is ignored;
otherwise JSON.parse runs, the callback is awaited, channel.ack follows
a normal return, and the shared catch block runs
channel.nack(message, false, true) when either the parse or the
callback throws. -/
def svcProcessMessage : Option ParseOutcome → HandlerOutcome → List DeliveryEvent
  | none, _ => []
  | some .failed, _ => [.parseStart, .parseFailed, .nacked false true]
  | some .parsed, .returns => [.parseStart, .handlerStart, .handlerReturned, .acked]
  | some .parsed, .throws => [.parseStart, .handlerStart, .handlerThrew, .nacked false true]

/-- The delivery callback registered by setupEmailConsumer
(src/email-worker.js lines 122-138): identical control flow, except the
catch block runs channel.nack(msg, false, false). -/
def workerProcessMessage : Option ParseOutcome → HandlerOutcome → List DeliveryEvent
  | none, _ => []
  | some .failed, _ => [.parseStart, .parseFailed, .nacked false false]
  | some .parsed, .returns => [.parseStart, .handlerStart, .handlerReturned, .acked]
  | some .parsed, .throws => [.parseStart, .handlerStart, .handlerThrew, .nacked false false]

/-- Whether a delivery event is a terminal resolution (ack or nack). -/
def isTerminal : DeliveryEvent → Bool
  | .acked => true
  | .nacked _ _ => true
  | _ => false

/-- The trace satisfies the no-premature-ack condition: either it never
acks, or the handler-returned event strictly precedes the ack. -/
def ackAfterHandlerB (t : List DeliveryEvent) : Bool :=
  !(t.contains .acked) || (t.indexOf .handlerReturned < t.indexOf .acked)

/-- Operations issued on a broker channel, in the order the source
issues them. `send` carries the serialized body and the value of the
persistent option; `consume` carries the value of the noAck option
(amqplib defaults noAck to false when, as in the email worker, no
options object is passed). -/
inductive ChanOp where
  | assertQueue (q : String) (durable : Bool)
  | prefetchCount (n : Nat)
  | consume (q : String) (noAck : Bool)
  | send (q : String) (body : String) (persistent : Bool)
  | checkQueue (q : String)
deriving DecidableEq

/-- Channel operations performed by RabbitMQService.consumeQueue
(src/unnamed/part_000 lines 121-151) on queue q: assertQueue with
durable true, then channel.consume with noAck false. No prefetch call
occurs anywhere in the method. -/
def consumeQueueOps (q : String) : List ChanOp :=
  [.assertQueue q true, .consume q false]

/-- Channel operations performed by setupEmailConsumer
(src/email-worker.js lines 109-122): assertQueue durable, then
channel.prefetch(1), then channel.consume with default options. -/
def setupEmailConsumerOps : List ChanOp :=
  [.assertQueue "email-queue" true, .prefetchCount 1, .consume "email-queue" false]

/-- Channel operations performed by RabbitMQService.sendToQueue
(src/unnamed/part_000 lines 94-119) on queue q with the given payload:
assertQueue with durable true, then channel.sendToQueue of the
JSON-serialized envelope with persistent true. -/
def sendToQueueOps (q : String) (payload : List (String × JVal)) (ts : String)
    (mid : JVal) : List ChanOp :=
  [.assertQueue q true,
   .send q (stringifyVal (JVal.obj (mergeEnvelope payload ts mid))) true]

/-- Whether a channel operation is a send. -/
def isSendOp : ChanOp → Bool
  | .send _ _ _ => true
  | _ => false

/-- Whether a channel operation is a prefetch call. -/
def isPrefetchOp : ChanOp → Bool
  | .prefetchCount _ => true
  | _ => false

/-- An entry appended to the Log collection (src/unnamed/part_000 lines
312-321): the action name, the optional userId, the payload-summary
data object the handler passes to Log.create, and the success-or-error
status. -/
structure LogEntry where
  action : String
  userId : Option String
  data : JVal
  status : String

/-- Outcome of the outbound SMTP delivery attempt: transporter.sendMail
either resolves or rejects. -/
inductive SmtpResult where
  | sent
  | rejected
deriving DecidableEq

/-- The email-queue handler registered by startBackgroundWorkers
(src/unnamed/part_000 lines 516-552), applied to the destructured type,
userId, email and data fields of the message. The SMTP attempt sits in
its own try/catch: a rejection only flips sendStatus to error, and
sendInfo stays null (info is the transporter result on success, or null
in simulation mode). Log.create then always runs with action
`email-` ++ type and the payload summary
`data: (email, type, data, sendInfo)`; the handler throws only when
that log append itself fails (logOk = false), in which case no entry is
written. -/
def emailQueueHandlerRun (t : String) (uid : Option String) (email d info : JVal)
    (smtp : SmtpResult) (logOk : Bool) : HandlerOutcome × List LogEntry :=
  let sendStatus := match smtp with
    | .sent => "success"
    | .rejected => "error"
  let sendInfo := match smtp with
    | .sent => info
    | .rejected => JVal.null
  if logOk then
    (.returns,
     [⟨"email-" ++ t, uid,
       .obj [("email", email), ("type", .str t), ("data", d),
             ("sendInfo", sendInfo)],
       sendStatus⟩])
  else (.throws, [])

/-- The sms-queue handler (src/unnamed/part_000 lines 555-570): a
simulated delay that cannot fail, then Log.create with action
`sms-` ++ type, the payload summary `data: (phone, content, type)`, and
status success. -/
def smsHandlerRun (t : String) (phone content : JVal) (logOk : Bool) :
    HandlerOutcome × List LogEntry :=
  if logOk then
    (.returns,
     [⟨"sms-" ++ t, none,
       .obj [("phone", phone), ("content", content), ("type", .str t)],
       "success"⟩])
  else (.throws, [])

/-- The analytics-queue handler (src/unnamed/part_000 lines 573-589):
simulated processing, then Log.create with action
`analytics-` ++ event, the userId, the payload summary
`data: (event, data)`, and status success. -/
def analyticsHandlerRun (event : String) (uid : Option String) (d : JVal)
    (logOk : Bool) : HandlerOutcome × List LogEntry :=
  if logOk then
    (.returns,
     [⟨"analytics-" ++ event, uid,
       .obj [("event", .str event), ("data", d)], "success"⟩])
  else (.throws, [])

/-- The image-processing-queue handler (src/unnamed/part_000 lines
592-608): simulated processing, then Log.create with the fixed action
image-processed, the userId, the payload summary
`data: (imagePath, operations)`, and status success. -/
def imageHandlerRun (uid : Option String) (imagePath ops : JVal) (logOk : Bool) :
    HandlerOutcome × List LogEntry :=
  if logOk then
    (.returns,
     [⟨"image-processed", uid,
       .obj [("imagePath", imagePath), ("operations", ops)], "success"⟩])
  else (.throws, [])

/-- The message callback of the standalone email worker
(src/email-worker.js lines 122-131 together with sendEmail, lines
25-41): sendEmail rethrows a transport rejection, and neither path
appends any entry to the Log collection - the worker only writes to the
console. -/
def workerSendEmailRun (smtp : SmtpResult) : HandlerOutcome × List LogEntry :=
  (match smtp with
    | .sent => .returns
    | .rejected => .throws, [])

/-- The full delivery trace of an email-queue message under the
Socket.io app: RabbitMQService.consumeQueue around the email-queue
handler, for a message that parses. -/
def emailQueueDelivery (smtp : SmtpResult) (logOk : Bool) : List DeliveryEvent :=
  svcProcessMessage (some .parsed)
    (emailQueueHandlerRun "welcome" none JVal.null JVal.null JVal.null smtp logOk).1

/-- Events observed by a broker connection manager: the outcome of a
connect attempt, and the close and error events emitted by an
established connection. -/
inductive ConnEvent where
  | attemptOk
  | attemptFail
  | connClose
  | connError
deriving DecidableEq

/-- Connection-manager state: whether a usable channel is up, the delay
in milliseconds of a reconnect scheduled via setTimeout (none when no
reconnect is pending), and whether the error of the current attempt was
rethrown to the caller. -/
structure ConnMgrState where
  channelUp : Bool
  scheduledRetryMs : Option Nat
  surfacedToCaller : Bool
deriving DecidableEq

/-- The state before any connect attempt. -/
def ConnMgrState.start : ConnMgrState := ⟨false, none, false⟩

/-- Transition function of connectRabbitMQ (src/unnamed/part_001 lines
21-49): a successful attempt installs the channel; the close handler
nulls the channel and schedules setTimeout(connectRabbitMQ, 5000); the
catch block nulls the channel and schedules the same 5000 ms retry
without rethrowing; the error handler only logs. -/
def connectRabbitMQStep (s : ConnMgrState) : ConnEvent → ConnMgrState
  | .attemptOk => ⟨true, none, false⟩
  | .attemptFail => ⟨false, some 5000, false⟩
  | .connClose => ⟨false, some 5000, s.surfacedToCaller⟩
  | .connError => s

/-- Transition function of RabbitMQService.connect
(src/unnamed/part_000 lines 69-92): success sets isConnected and
registers only an error handler, which clears isConnected; the catch
block clears isConnected and rethrows the error to the caller; no close
handler is registered, so a close event changes nothing. -/
def serviceConnectStep (s : ConnMgrState) : ConnEvent → ConnMgrState
  | .attemptOk => ⟨true, none, false⟩
  | .attemptFail => ⟨false, none, true⟩
  | .connClose => s
  | .connError => ⟨false, s.scheduledRetryMs, s.surfacedToCaller⟩

/-- Transition function of setupEmailConsumer (src/email-worker.js
lines 109-151): the close handler and the catch block both schedule
setTimeout(setupEmailConsumer, 5000); no error handler is registered. -/
def setupEmailConsumerStep (s : ConnMgrState) : ConnEvent → ConnMgrState
  | .attemptOk => ⟨true, none, false⟩
  | .attemptFail => ⟨false, some 5000, false⟩
  | .connClose => ⟨false, some 5000, s.surfacedToCaller⟩
  | .connError => s

/-- Folding a connection manager over a sequence of events. -/
def runConn (step : ConnMgrState → ConnEvent → ConnMgrState)
    (evs : List ConnEvent) : ConnMgrState :=
  evs.foldl step ConnMgrState.start

/-- State of a RabbitMQService instance (src/unnamed/part_000 lines
62-67): a counter generating identities for channels created so far,
the single stored channel handle (this.channel), and the isConnected
flag. -/
structure RabbitSvcState where
  nextChannelId : Nat
  channel : Option Nat
  isConnected : Bool
deriving DecidableEq

/-- The freshly constructed service: no connection, no channel. -/
def RabbitSvcState.init : RabbitSvcState := ⟨0, none, false⟩

/-- RabbitMQService.connect (src/unnamed/part_000 lines 69-92) creates
one connection and exactly one channel and stores it in this.channel,
overwriting any previous one. -/
def svcConnect (s : RabbitSvcState) : RabbitSvcState :=
  ⟨s.nextChannelId + 1, some s.nextChannelId, true⟩

/-- The connectivity guard at the top of sendToQueue, consumeQueue and
getQueueInfo: if isConnected is false, await this.connect() first. -/
def svcEnsure (s : RabbitSvcState) : RabbitSvcState :=
  if s.isConnected then s else svcConnect s

/-- The channel on which RabbitMQService.sendToQueue issues its
operations: always this.channel after the connectivity guard. -/
def svcSendToQueueChannel (s : RabbitSvcState) : RabbitSvcState × Option Nat :=
  let s1 := svcEnsure s
  (s1, s1.channel)

/-- The channel on which RabbitMQService.consumeQueue registers the
consumer for queue q: always this.channel after the connectivity
guard. -/
def svcConsumeQueueChannel (s : RabbitSvcState) (q : String) :
    RabbitSvcState × Option Nat :=
  let s1 := svcEnsure s
  (s1, s1.channel)

/-- The channel on which RabbitMQService.getQueueInfo issues
checkQueue: again this.channel. -/
def svcGetQueueInfoChannel (s : RabbitSvcState) : RabbitSvcState × Option Nat :=
  let s1 := svcEnsure s
  (s1, s1.channel)

/-- The service state after startServer has run connect()
(src/unnamed/part_000 line 997). -/
def startupState : RabbitSvcState := svcConnect RabbitSvcState.init

/-- The steps of the try block of POST /api/users in the Socket.io app
(src/unnamed/part_000 lines 650-716) that follow a successful
newUser.save(): the 201 response is sent first, then the four awaited
sendToQueue calls, then the io.emit broadcast. -/
inductive RouteStep where
  | respond (code : Nat)
  | publish (q : String)
  | socketEmit
deriving DecidableEq

/-- The post-save step list of POST /api/users, in source order. -/
def postUsersTrySteps : List RouteStep :=
  [.respond 201,
   .publish "email-queue",
   .publish "sms-queue",
   .publish "analytics-queue",
   .publish "image-processing-queue",
   .socketEmit]

/-- The HTTP status code a route step emits, if any. -/
def stepResponse : RouteStep → Option Nat
  | .respond c => some c
  | _ => none

/-- HTTP responses attempted by the POST /api/users handler after a
successful save, when the step at index failAt (if any) throws: the
steps before it complete, the failing step throws before responding,
and the catch block (src/unnamed/part_000 lines 717-739) falls through
to res.status(500).json for an error that is neither a ValidationError
nor a duplicate key. -/
def runPostUsers : Option Nat → List Nat
  | none => postUsersTrySteps.filterMap stepResponse
  | some i => (postUsersTrySteps.take i).filterMap stepResponse ++ [500]

/-- The subject selector of the standalone email worker
(src/email-worker.js lines 97-106), applied to the value of the
top-level action field of the parsed message: a switch on the strings
email-welcome and password-reset, with a default branch. An absent
action field (undefined) takes the default branch. -/
def getSubject : Option JVal → String
  | some (.str s) =>
      if s = "email-welcome" then "Platformumuza Hoş Geldiniz!"
      else if s = "password-reset" then "Şifre Sıfırlama Talebi"
      else "Sistem Bildirimi"
  | _ => "Sistem Bildirimi"

/-- Which of the three HTML templates of getEmailTemplate
(src/email-worker.js lines 44-94) is selected; the template bodies
themselves are irrelevant to the dispatch logic. -/
inductive EmailTemplate where
  | welcome
  | passwordReset
  | generic
deriving DecidableEq

/-- The template selector of getEmailTemplate, switching on the
top-level action field of the message. -/
def getEmailTemplate : Option JVal → EmailTemplate
  | some (.str s) =>
      if s = "email-welcome" then .welcome
      else if s = "password-reset" then .passwordReset
      else .generic
  | _ => .generic

/-- The recipient chosen by sendEmail (src/email-worker.js line 29):
the email field of the data field of the message,
mailOptions.to = emailData.data.email. -/
def sendEmailRecipient (emailData : JVal) : Option JVal :=
  (emailData.getField "data").bind (fun d => d.getField "email")

/-- The payload the Socket.io app publishes to email-queue on user
creation (src/unnamed/part_000 lines 676-681): type and email at the
top level, only userName inside data, and no action field. -/
def socketioEmailPayload (uid email userName : String) : List (String × JVal) :=
  [("type", .str "welcome"),
   ("userId", .str uid),
   ("email", .str email),
   ("data", .obj [("userName", .str userName)])]

/-- The envelope actually delivered to the email worker for such a
publish: the payload after sendToQueue attaches timestamp and
messageId. -/
def socketioEmailEnvelope (uid email userName ts : String) (mid : JVal) : JVal :=
  .obj (mergeEnvelope (socketioEmailPayload uid email userName) ts mid)

/-- The queue name a route step publishes to, if it is a publish. -/
def routeStepQueue : RouteStep → Option String
  | .publish q => some q
  | _ => none

theorem lookupKey_setKey_self (l : List (String × JVal)) (k : String) (v : JVal) :
    lookupKey (setKey l k v) k = some v := by
  induction l with
  | nil => simp [setKey, lookupKey]
  | cons hd tl ih =>
      obtain ⟨k0, v0⟩ := hd
      by_cases h : k0 = k
      · simp [setKey, h, lookupKey]
      · simp [setKey, h, lookupKey, ih]

theorem lookupKey_setKey_other (l : List (String × JVal)) (k : String) (v : JVal)
    (k2 : String) (h : k2 ≠ k) :
    lookupKey (setKey l k v) k2 = lookupKey l k2 := by
  induction l with
  | nil =>
      simp [setKey, lookupKey]
      intro hk
      exact absurd hk.symm h
  | cons hd tl ih =>
      obtain ⟨k0, v0⟩ := hd
      by_cases h0 : k0 = k
      · subst h0
        have hne : ¬ (k0 = k2) := fun hk => h hk.symm
        simp [setKey, lookupKey, hne]
      · simp [setKey, h0, lookupKey, ih]

/-- C1: under RabbitMQService.consumeQueue every delivered non-null
message reaches exactly one terminal resolution, the resolution is an
ack exactly when the body parsed and the handler returned normally, a
nack (requeue enabled) exactly when the parse or the handler threw, the
ack is only emitted after the handler has fully returned, and a null
delivery is ignored entirely. -/
theorem consumeQueue_ack_discipline :
    ∀ (p : ParseOutcome) (ho : HandlerOutcome),
      ((svcProcessMessage (some p) ho).filter isTerminal).length = 1 ∧
      ((svcProcessMessage (some p) ho).contains .acked = true ↔
        (p = .parsed ∧ ho = .returns)) ∧
      ((svcProcessMessage (some p) ho).contains (.nacked false true) = true ↔
        (p = .failed ∨ ho = .throws)) ∧
      ackAfterHandlerB (svcProcessMessage (some p) ho) = true ∧
      svcProcessMessage none ho = [] := by
  decide

/-- C2 counterexample: in RabbitMQService.consumeQueue a message whose
body fails to parse is nacked with requeue ENABLED, and no
requeue-disabled nack occurs, so the malformed message is redelivered
rather than discarded. -/
theorem consumeQueue_malformed_requeued_cex :
    svcProcessMessage (some .failed) .returns
      = [.parseStart, .parseFailed, .nacked false true] ∧
    ¬ ((svcProcessMessage (some .failed) .returns).contains (.nacked false false)
        = true) := by
  decide

/-- C2 amended: a message whose body fails to deserialize is nacked
exactly once; the standalone email worker nacks it with requeue
disabled, but RabbitMQService.consumeQueue nacks it with requeue
enabled, so under that consumer a malformed message is redelivered and
retried. -/
theorem malformed_message_nack_semantics :
    ∀ ho : HandlerOutcome,
      svcProcessMessage (some .failed) ho
        = [.parseStart, .parseFailed, .nacked false true] ∧
      workerProcessMessage (some .failed) ho
        = [.parseStart, .parseFailed, .nacked false false] ∧
      ((workerProcessMessage (some .failed) ho).filter isTerminal).length = 1 ∧
      ((svcProcessMessage (some .failed) ho).filter isTerminal).length = 1 := by
  decide

/-- C3 counterexample: an email-queue message whose SMTP delivery is
rejected by the transport is ACKED, not nacked with requeue: the
handler catches the rejection internally and returns normally. -/
theorem emailQueue_transport_reject_acked_cex :
    emailQueueDelivery .rejected true
      = [.parseStart, .handlerStart, .handlerReturned, .acked] ∧
    ¬ ((emailQueueDelivery .rejected true).contains (.nacked false true) = true) := by
  decide

/-- C3 amended: a handler that THROWS under RabbitMQService.consumeQueue
is nacked with requeue enabled; however, a delivery-transport rejection
in the email-queue handler is caught inside the handler, which returns
normally after writing an error log entry, so that message is acked,
and the standalone email worker nacks a throwing handler with requeue
DISABLED, so no redelivery happens there. -/
theorem handler_failure_nack_semantics :
    ∀ (t : String) (uid : Option String) (email d info : JVal),
      svcProcessMessage (some .parsed) .throws
        = [.parseStart, .handlerStart, .handlerThrew, .nacked false true] ∧
      (emailQueueHandlerRun t uid email d info .rejected true).1 = .returns ∧
      (emailQueueHandlerRun t uid email d info .rejected true).2
        = [⟨"email-" ++ t, uid,
            .obj [("email", email), ("type", .str t), ("data", d),
                  ("sendInfo", JVal.null)],
            "error"⟩] ∧
      workerProcessMessage (some .parsed) .throws
        = [.parseStart, .handlerStart, .handlerThrew, .nacked false false] := by
  intro t uid email d info
  exact ⟨rfl, rfl, rfl, rfl⟩

/-- C4 counterexample: the channel-operation sequence of
RabbitMQService.consumeQueue on email-queue contains no prefetch call
at all, in particular not prefetch 1. -/
theorem consumeQueue_no_prefetch_cex :
    (consumeQueueOps "email-queue").filter isPrefetchOp = [] ∧
    ¬ (ChanOp.prefetchCount 1 ∈ consumeQueueOps "email-queue") := by
  decide

/-- C4 amended: RabbitMQService.consumeQueue never sets channel
prefetch on any queue, so its subscriptions run at the broker default
(unbounded in-flight deliveries); only the standalone email worker sets
prefetch to 1, before registering its consumer, giving one-at-a-time
processing on its channel. -/
theorem prefetch_only_in_worker :
    ∀ q : String,
      (consumeQueueOps q).filter isPrefetchOp = [] ∧
      setupEmailConsumerOps.filter isPrefetchOp = [.prefetchCount 1] ∧
      setupEmailConsumerOps
        = [.assertQueue "email-queue" true, .prefetchCount 1,
           .consume "email-queue" false] := by
  intro q
  exact ⟨rfl, rfl, rfl⟩

/-- C5: for every queue name and payload, sendToQueue first declares
the target queue as durable and then issues exactly one send, whose
body is the JSON serialization of the payload merged with a timestamp
field and a messageId field (the merge sets those two fields and leaves
every other payload key unchanged), with the persistent flag set on the
send. -/
theorem sendToQueue_envelope_spec :
    ∀ (q : String) (payload : List (String × JVal)) (ts : String) (mid : JVal)
      (k : String), k ≠ "timestamp" → k ≠ "messageId" →
      sendToQueueOps q payload ts mid
        = [ChanOp.assertQueue q true,
           ChanOp.send q (stringifyVal (JVal.obj (mergeEnvelope payload ts mid)))
             true] ∧
      ((sendToQueueOps q payload ts mid).filter isSendOp).length = 1 ∧
      lookupKey (mergeEnvelope payload ts mid) "timestamp" = some (JVal.str ts) ∧
      lookupKey (mergeEnvelope payload ts mid) "messageId" = some mid ∧
      lookupKey (mergeEnvelope payload ts mid) k = lookupKey payload k := by
  intro q payload ts mid k hts hmid
  refine ⟨rfl, rfl, ?_, ?_, ?_⟩
  · rw [mergeEnvelope, lookupKey_setKey_other _ _ _ _ (by decide),
        lookupKey_setKey_self]
  · rw [mergeEnvelope, lookupKey_setKey_self]
  · rw [mergeEnvelope, lookupKey_setKey_other _ _ _ _ hmid,
        lookupKey_setKey_other _ _ _ _ hts]

/-- Witness for C5: instantiation at queue email-queue, the payload
field type = welcome, and key type, evaluated concretely. -/
theorem sendToQueue_envelope_spec_witness :
    lookupKey (mergeEnvelope [("type", JVal.str "welcome")] "t0" (JVal.num 7))
        "type" = some (JVal.str "welcome") ∧
    lookupKey (mergeEnvelope [("type", JVal.str "welcome")] "t0" (JVal.num 7))
        "timestamp" = some (JVal.str "t0") := by
  have h := sendToQueue_envelope_spec "email-queue" [("type", JVal.str "welcome")]
    "t0" (JVal.num 7) "type" (by decide) (by decide)
  exact ⟨h.2.2.2.2.trans rfl, h.2.2.1⟩

/-- C6 counterexample: an error during the initial connectRabbitMQ
attempt is NOT surfaced to the caller; the catch block schedules a
5000 ms retry instead, exactly like the close handler. -/
theorem connectRabbitMQ_initial_failure_not_surfaced_cex :
    ¬ ((connectRabbitMQStep ConnMgrState.start .attemptFail).surfacedToCaller
        = true) ∧
    (connectRabbitMQStep ConnMgrState.start .attemptFail).scheduledRetryMs
      = some 5000 := by
  decide

/-- C6 amended: on unexpected closure connectRabbitMQ and the email
worker schedule a reconnect after a fixed 5000 ms delay and schedule
the same retry after every failed attempt until one succeeds; errors
during the initial attempt take the same 5000 ms retry path instead of
being surfaced. Only RabbitMQService.connect surfaces connection errors
to its caller, and it registers no close handler, so it never schedules
a reconnect on closure. -/
theorem reconnect_policy_semantics :
    ∀ (s : ConnMgrState) (evs : List ConnEvent),
      (connectRabbitMQStep s .connClose).scheduledRetryMs = some 5000 ∧
      (connectRabbitMQStep s .attemptFail).scheduledRetryMs = some 5000 ∧
      (connectRabbitMQStep s .attemptFail).surfacedToCaller = false ∧
      (connectRabbitMQStep s .attemptOk).scheduledRetryMs = none ∧
      runConn connectRabbitMQStep (evs ++ [.attemptFail])
        = ⟨false, some 5000, false⟩ ∧
      (setupEmailConsumerStep s .connClose).scheduledRetryMs = some 5000 ∧
      (setupEmailConsumerStep s .attemptFail).scheduledRetryMs = some 5000 ∧
      (serviceConnectStep s .attemptFail).surfacedToCaller = true ∧
      (serviceConnectStep s .attemptFail).scheduledRetryMs = none ∧
      serviceConnectStep s .connClose = s := by
  intro s evs
  refine ⟨rfl, rfl, rfl, rfl, ?_, rfl, rfl, rfl, rfl, rfl⟩
  simp [runConn, List.foldl_append, connectRabbitMQStep]

/-- C7 counterexample: the standalone email worker appends no log entry
at all for a successfully delivered message, so it does not append
exactly one entry per attempt. -/
theorem workerSendEmail_no_log_cex :
    (workerSendEmailRun .sent).2 = [] ∧
    ¬ ((workerSendEmailRun .sent).2.length = 1) := by
  exact ⟨rfl, by decide⟩

/-- C7 amended: each of the four queue handlers of
startBackgroundWorkers appends exactly one log entry per processed
message whenever the log append itself succeeds, recording the action
name, the userId where available, the payload-summary data object built
from the message fields (email/type/data/sendInfo for the email
handler, phone/content/type for sms, event/data for analytics,
imagePath/operations for image processing), and a success-or-error
status (error exactly when the SMTP transport rejected); when
Log.create itself throws no entry is written; and the standalone email
worker appends no log entry at all. -/
theorem handler_log_append_semantics :
    ∀ (t ev : String) (uid : Option String)
      (email d info phone content imagePath ops : JVal) (smtp : SmtpResult),
      (emailQueueHandlerRun t uid email d info smtp true).2
        = [⟨"email-" ++ t, uid,
            .obj [("email", email), ("type", .str t), ("data", d),
                  ("sendInfo",
                    match smtp with | .sent => info | .rejected => JVal.null)],
            match smtp with | .sent => "success" | .rejected => "error"⟩] ∧
      (smsHandlerRun t phone content true).2
        = [⟨"sms-" ++ t, none,
            .obj [("phone", phone), ("content", content), ("type", .str t)],
            "success"⟩] ∧
      (analyticsHandlerRun ev uid d true).2
        = [⟨"analytics-" ++ ev, uid,
            .obj [("event", .str ev), ("data", d)], "success"⟩] ∧
      (imageHandlerRun uid imagePath ops true).2
        = [⟨"image-processed", uid,
            .obj [("imagePath", imagePath), ("operations", ops)], "success"⟩] ∧
      (workerSendEmailRun smtp).2 = [] ∧
      (emailQueueHandlerRun t uid email d info smtp false).2 = [] := by
  intro t ev uid email d info phone content imagePath ops smtp
  cases smtp <;> exact ⟨rfl, rfl, rfl, rfl, rfl, rfl⟩

/-- C8 counterexample: after startup, the publish path and the
email-queue and sms-queue consumers all operate on one and the same
channel (the single channel stored by connect), so a channel is shared
between the publisher and consumers of different queues. -/
theorem shared_channel_cex :
    (svcSendToQueueChannel startupState).2 = some 0 ∧
    (svcConsumeQueueChannel startupState "email-queue").2 = some 0 ∧
    (svcConsumeQueueChannel startupState "sms-queue").2 = some 0 ∧
    ¬ ((svcSendToQueueChannel startupState).2
        ≠ (svcConsumeQueueChannel startupState "email-queue").2) := by
  decide

/-- C8 amended: within the Socket.io app every operation of the
RabbitMQService - sendToQueue, every consumeQueue subscription, and
getQueueInfo - uses the single channel stored by the most recent
connect, so the publisher and the consumers of all queues share one
channel; only the standalone email worker runs its consumer on a
channel of its own separate connection. -/
theorem service_single_channel :
    ∀ (s : RabbitSvcState) (q r : String),
      (svcSendToQueueChannel s).2 = (svcEnsure s).channel ∧
      (svcConsumeQueueChannel s q).2 = (svcEnsure s).channel ∧
      (svcGetQueueInfoChannel s).2 = (svcEnsure s).channel ∧
      (svcConsumeQueueChannel s q).2 = (svcConsumeQueueChannel s r).2 ∧
      (svcSendToQueueChannel s).2 = (svcConsumeQueueChannel s q).2 := by
  intro s q r
  exact ⟨rfl, rfl, rfl, rfl, rfl⟩

/-- C9: in the POST /api/users handler of the Socket.io app the 201
response is the very first post-save step, preceding the four awaited
queue publishes and the socket emit; and when any of those five later
steps throws, the handler attempts a second HTTP response: exactly the
codes 201 then 500 are sent on the same request. -/
theorem postUsers_responds_before_publishes :
    postUsersTrySteps.head? = some (.respond 201) ∧
    postUsersTrySteps.filterMap routeStepQueue
      = ["email-queue", "sms-queue", "analytics-queue",
         "image-processing-queue"] ∧
    (∀ i : Fin 5, runPostUsers (some (i.val + 1)) = [201, 500]) ∧
    runPostUsers none = [201] := by
  refine ⟨rfl, rfl, ?_, rfl⟩
  decide

/-- C10: for every message the Socket.io app publishes to email-queue
on user creation, the delivered envelope has no action field, so the
standalone email worker falls through to the default subject Sistem
Bildirimi and the default generic template, and the recipient
emailData.data.email is undefined. -/
theorem socketio_email_message_misread :
    ∀ (uid email userName ts : String) (mid : JVal),
      (socketioEmailEnvelope uid email userName ts mid).getField "action"
        = none ∧
      getSubject
          ((socketioEmailEnvelope uid email userName ts mid).getField "action")
        = "Sistem Bildirimi" ∧
      getEmailTemplate
          ((socketioEmailEnvelope uid email userName ts mid).getField "action")
        = .generic ∧
      sendEmailRecipient (socketioEmailEnvelope uid email userName ts mid)
        = none := by
  intro uid email userName ts mid
  exact ⟨rfl, rfl, rfl, rfl⟩
